import Mathlib

/-!
# Verification of `aws-notifier` (Go) against its specification

Shallow embedding of the three source files `main.go`, `sns.go` and
`pagerduty.go`. Pure data structures are translated field by field
(Go zero values become structure-field defaults). The external
effects — `json.Unmarshal` for each target schema and the two HTTP
`POST` calls — are modelled as oracles: a `Decoders` record of decode
functions, and per-notifier `postErr` functions giving the transport
outcome of each POST. Every processing function returns the ordered
trace of sink calls it made together with a Go-style outcome
(`ok`, returned `error`, or runtime panic).
-/

set_option autoImplicit false

namespace AwsNotifier

/-- Go-style termination of a function call: normal return `nil`,
a returned non-nil `error`, or a runtime panic that unwinds the stack. -/
inductive Outcome where
  | ok
  | err (e : String)
  | panicked (msg : String)
deriving DecidableEq, Repr

----------------------------------------------------------------------
-- Substring containment, modelling Go `strings.Contains(s, pat)`

/-- Does the character list start with `pat`? (helper for `strContains`). -/
def leadMatch : List Char → List Char → Bool
  | _, [] => true
  | [], _ :: _ => false
  | c :: cs, d :: ds => c == d && leadMatch cs ds

/-- Does some suffix of the character list start with `pat`? -/
def strContainsAux (pat : List Char) : List Char → Bool
  | [] => leadMatch [] pat
  | c :: cs => leadMatch (c :: cs) pat || strContainsAux pat cs

/-- Model of Go `strings.Contains(s, pat)`. -/
def strContains (s pat : String) : Bool :=
  strContainsAux pat.data s.data

----------------------------------------------------------------------
-- Go map[string]string, modelled as an association list with
-- first-occurrence update (keys stay unique when built from empty)

/-- Model of Go map assignment `m[k] = v`. -/
def mapInsert : List (String × String) → String → String → List (String × String)
  | [], k, v => [(k, v)]
  | p :: ps, k, v => if p.1 == k then (k, v) :: ps else p :: mapInsert ps k v

/-- Model of Go map read `m[k]` (with presence). -/
def mapLookup : List (String × String) → String → Option String
  | [], _ => none
  | p :: ps, k => if p.1 == k then some p.2 else mapLookup ps k

----------------------------------------------------------------------
-- Data model: Slack (main.go second part) and Pagerduty (pagerduty.go)

def ColorInfo : String := "#00BFFF" -- Deep Sky Blue
def ColorSuccess : String := "#00FF00" -- Lime
def ColorWarn : String := "#FFD700" -- Gold
def ColorError : String := "#DC143C" -- Crimson

structure SlackField where
  Title : String := ""
  Value : String := ""
  Short : Bool := false
deriving DecidableEq, Repr

structure SlackAttachment where
  Fallback : String := ""
  Color : String := ""
  Fields : List SlackField := []
deriving DecidableEq, Repr

structure SlackMessage where
  Attachments : List SlackAttachment := []
deriving DecidableEq, Repr

structure PagerdutyIncidentDetails where
  Fields : List (String × String) := []
deriving DecidableEq, Repr

structure PagerdutyIncident where
  Description : String := ""
  IncidentKey : String := ""
  Details : PagerdutyIncidentDetails := {}
deriving DecidableEq, Repr

structure PagerdutyIncidentRequest where
  ServiceKey : String := ""
  EventType : String := ""
  Description : String := ""
  IncidentKey : String := ""
  Client : String := ""
  Details : PagerdutyIncidentDetails := {}
deriving DecidableEq, Repr

/-- One outbound HTTP POST made to a notification sink. -/
inductive SinkCall where
  | slack (msg : SlackMessage)
  | pagerduty (incident : PagerdutyIncident)
deriving DecidableEq, Repr

/-- The Slack chat messages in a sink-call trace, in order. -/
def slackCalls (t : List SinkCall) : List SlackMessage :=
  t.filterMap fun c => match c with
    | SinkCall.slack m => some m
    | _ => none

/-- The Pagerduty incidents in a sink-call trace, in order. -/
def pagerdutyCalls (t : List SinkCall) : List PagerdutyIncident :=
  t.filterMap fun c => match c with
    | SinkCall.pagerduty i => some i
    | _ => none

/-- `SlackNotifier` from main.go; `postErr` is the transport-level oracle
for `http.Post` of a given message body (`none` = success, `some e` =
the POST failed with error text `e`, in which case Go returns a nil
`*http.Response`). -/
structure SlackNotifier where
  webhook : String := ""
  postErr : SlackMessage → Option String := fun _ => none

/-- `SlackNotifier.sendMessage` from main.go. `json.Marshal` of a
`SlackMessage` (strings, bools and lists only) cannot fail, so that
branch is unreachable. The source calls `res.Body.Close()` BEFORE
checking `err`; on a transport failure `res` is nil and the call
panics with a nil-pointer dereference, so the
`"Failed to send Slack message - got error: "` return is dead code. -/
def SlackNotifier.sendMessage (n : SlackNotifier) (msg : SlackMessage) :
    List SinkCall × Outcome :=
  ([SinkCall.slack msg],
    match n.postErr msg with
    | none => Outcome.ok
    | some _ =>
      Outcome.panicked "runtime error: invalid memory address or nil pointer dereference")

/-- `PagerdutyNotifier` from pagerduty.go, with the same POST oracle. -/
structure PagerdutyNotifier where
  serviceKey : String := ""
  postErr : PagerdutyIncidentRequest → Option String := fun _ => none

/-- `PagerdutyNotifier.triggerIncident` from pagerduty.go. As in
`sendMessage`, `res.Body.Close()` precedes the `err` check, so a
transport failure panics instead of reaching the
`"failed to trigger Pagerduty Incident - got error: "` return. -/
def PagerdutyNotifier.triggerIncident (p : PagerdutyNotifier)
    (incident : PagerdutyIncident) : List SinkCall × Outcome :=
  let req : PagerdutyIncidentRequest :=
    { ServiceKey := p.serviceKey
      EventType := "trigger"
      Description := incident.Description
      IncidentKey := incident.IncidentKey
      Client := "AWS Event Processor"
      Details := incident.Details }
  ([SinkCall.pagerduty incident],
    match p.postErr req with
    | none => Outcome.ok
    | some _ =>
      Outcome.panicked "runtime error: invalid memory address or nil pointer dereference")

----------------------------------------------------------------------
-- Types for reading SNS payloads (sns.go)

/-- `SMSMessageAttribute` from sns.go. Go names the first field `Type`,
a Lean keyword, so it is rendered `AttrType` here. -/
structure SMSMessageAttribute where
  AttrType : String := ""
  Value : String := ""
deriving DecidableEq, Repr

/-- `SNSMessage` from sns.go. Go names its `Type` field after the JSON
tag `"Type"`; it is rendered `MsgType` here (a Lean keyword otherwise). -/
structure SNSMessage where
  SignatureVersion : String := ""
  Timestamp : String := ""
  Signature : String := ""
  SigningCertUrl : String := ""
  MessageId : String := ""
  Message : String := ""
  MessageAttributes : List (String × SMSMessageAttribute) := []
  MsgType : String := ""
  UnsubscribeUrl : String := ""
  TopicArn : String := ""
  Subject : String := ""
deriving DecidableEq, Repr

structure SNSRecord where
  EventVersion : String := ""
  EventSubscriptionArn : String := ""
  EventSource : String := ""
  Sns : SNSMessage := {}
deriving DecidableEq, Repr

structure SNSRecordList where
  Records : List SNSRecord := []
deriving DecidableEq, Repr

structure CloudwatchAlarmTriggerDimension where
  Name : String := ""
  Value : String := ""
deriving DecidableEq, Repr

structure CloudwatchAlarmTrigger where
  MetricName : String := ""
  Namespace : String := ""
  Statistic : String := ""
  Unit : String := ""
  Dimensions : List CloudwatchAlarmTriggerDimension := []
  Period : Int := 0
  EvaluationPeriods : Int := 0
  ComparisonOperator : String := ""
  Threshold : Rat := 0 -- Go float32; only carried, never computed with
deriving DecidableEq, Repr

structure CloudwatchAlarm where
  AlarmName : String := ""
  AlarmDescription : String := ""
  AWSAccountId : String := ""
  NewStateValue : String := ""
  NewStateReason : String := ""
  StateChangeTime : String := ""
  Region : String := ""
  OldStateValue : String := ""
  Trigger : CloudwatchAlarmTrigger := {}
deriving DecidableEq, Repr

----------------------------------------------------------------------
-- Types for reading Cloudwatch Event payloads (second part of sns.go)

/-- `CloudwatchEvent` from sns.go; `Detail` is `json.RawMessage`,
kept verbatim as a string. -/
structure CloudwatchEvent where
  Id : String := ""
  DetailType : String := ""
  Source : String := ""
  Account : String := ""
  Time : String := ""
  Region : String := ""
  Resources : List String := []
  Detail : String := ""
deriving DecidableEq, Repr

structure DetailEC2StateChange where
  InstanceId : String := ""
  State : String := ""
deriving DecidableEq, Repr

structure DetailAutoScalingLifecycleEvent where
  LifecycleActionToken : String := ""
  AutoScalingGroupName : String := ""
  LifecycleHookName : String := ""
  EC2InstanceId : String := ""
  LifecycleTransition : String := ""
  NotificationMetadata : String := ""
deriving DecidableEq, Repr

structure DetailAutoScalingEC2EventDetails where
  AvailabilityZone : String := ""
  SubnetID : String := ""
deriving DecidableEq, Repr

structure DetailAutoScalingEC2Event where
  StatusCode : String := ""
  AutoScalingGroupName : String := ""
  ActivityId : String := ""
  Details : DetailAutoScalingEC2EventDetails := {}
  RequestId : String := ""
  EndTime : String := ""
  EC2InstanceId : String := ""
  StartTime : String := ""
  Cause : String := ""
deriving DecidableEq, Repr

----------------------------------------------------------------------
-- GenericEvent (main.go): permissive envelope used only for routing

/-- A JSON value as far as the routing test cares: Go compares
`map[string]interface{}` entries against the string `"aws:sns"`,
which is true only for a JSON string of that exact content. -/
inductive JValue where
  | str (s : String)
  | other
deriving DecidableEq, Repr

/-- Read of `m[k]` on a decoded Go `map[string]interface{}`. -/
def jsonMapGet (m : List (String × JValue)) (k : String) : Option JValue :=
  (m.find? fun p => p.1 == k).map fun p => p.2

/-- `GenericEvent` from main.go. `Records` is a nil-able slice of
`map[string]interface{}`: `none` models a nil slice. -/
structure GenericEvent where
  Records : Option (List (List (String × JValue))) := none
  Id : String := ""
  DetailType : String := ""
  Source : String := ""
  Test : String := ""
deriving DecidableEq, Repr

----------------------------------------------------------------------
-- Decode oracles for `json.Unmarshal` at each target schema

/-- The `json.Unmarshal` calls of the program, one oracle per target
schema. `Except.error e` models a non-nil unmarshal error with text `e`. -/
structure Decoders where
  decodeGeneric : String → Except String GenericEvent
  decodeRecordList : String → Except String SNSRecordList
  decodeCloudwatchEvent : String → Except String CloudwatchEvent
  decodeAlarm : String → Except String CloudwatchAlarm
  decodeEC2Detail : String → Except String DetailEC2StateChange

----------------------------------------------------------------------
-- contains (main.go)

/-- `contains` from main.go. -/
def contains : List String → String → Bool
  | [], _ => false
  | v :: vs, el => if v == el then true else contains vs el

----------------------------------------------------------------------
-- Event processor (sns.go)

/-- The second branch of `processSNSRecord` (subject contains
"RDS Notification Message"): plain informational Slack message.
Returning the `sendMessage` pair directly models
`if err := ...; err != nil { return err }; return nil`. -/
def rdsNotificationBranch (slackNotifier : SlackNotifier) (record : SNSRecord) :
    List SinkCall × Outcome :=
  let slackMessage : SlackMessage :=
    { Attachments := [
        { Fallback := record.Sns.Message
          Color := ColorInfo
          Fields := [
            { Title := record.Sns.Subject
              Value := record.Sns.Message
              Short := false } ] } ] }
  slackNotifier.sendMessage slackMessage

/-- The final (catch-all) branch of `processSNSRecord`: basic processing
for all other (plain) SNS messages. -/
def plainMessageBranch (slackNotifier : SlackNotifier) (record : SNSRecord) :
    List SinkCall × Outcome :=
  let slackMessage : SlackMessage :=
    { Attachments := [
        { Fallback := record.Sns.Message
          Color := ColorInfo
          Fields := [
            { Title := record.Sns.Subject
              Value := record.Sns.Message
              Short := false } ] } ] }
  slackNotifier.sendMessage slackMessage

/-- `processSNSRecord` from sns.go. The `fields` slice is grown by
`append` inside the dimension loop, and `incidentKey`/`detailFields`
are two accumulators of one loop, modelled as `List.foldl`. -/
def processSNSRecord (D : Decoders) (slackNotifier : SlackNotifier)
    (pagerdutyNotifier : PagerdutyNotifier) (record : SNSRecord) :
    List SinkCall × Outcome :=
  -- Cloudwatch Alarm
  if strContains record.Sns.Subject "ALARM:" || strContains record.Sns.Subject "OK:" then
    let isFailing := strContains record.Sns.Subject "ALARM:"
    match D.decodeAlarm record.Sns.Message with
    | Except.error e =>
      ([], Outcome.err ("could not unmarshal Cloudwatch Alarm payload: " ++ e))
    | Except.ok alarm =>
      let fields : List SlackField := [
        { Title := record.Sns.Subject
          Value := alarm.NewStateReason
          Short := false } ]
      let fields := alarm.Trigger.Dimensions.foldl
        (fun fs d => fs ++ [{ Title := d.Name, Value := d.Value, Short := true }]) fields
      let color := if isFailing then ColorError else ColorSuccess
      let fields := fields ++ [
        { Title := "Namespace", Value := alarm.Trigger.Namespace, Short := true } ]
      let fields := fields ++ [
        { Title := "MetricName", Value := alarm.Trigger.MetricName, Short := true } ]
      let slackMessage : SlackMessage :=
        { Attachments := [
            { Fallback := alarm.NewStateReason
              Color := color
              Fields := fields } ] }
      let sent := slackNotifier.sendMessage slackMessage
      match sent.2 with
      | Outcome.ok =>
        if isFailing then
          let acc := alarm.Trigger.Dimensions.foldl
            (fun (acc : String × List (String × String)) dv =>
              (acc.1 ++ dv.Value, mapInsert acc.2 dv.Name dv.Value))
            ("incident", [])
          let incident : PagerdutyIncident :=
            { Description := record.Sns.Subject ++ "-" ++ alarm.NewStateReason
              IncidentKey := acc.1
              Details := { Fields := acc.2 } }
          let triggered := pagerdutyNotifier.triggerIncident incident
          (sent.1 ++ triggered.1, triggered.2)
        else
          (sent.1, Outcome.ok)
      | o => (sent.1, o)
  else if strContains record.Sns.Subject "RDS Notification Message" then
    rdsNotificationBranch slackNotifier record
  else
    plainMessageBranch slackNotifier record

/-- The record loop of `processSNSRecords`: process each record in list
order, aborting on the first non-ok outcome; a returned error is wrapped
with the `"could not process SNS record: "` prefix, a panic unwinds. -/
def processSNSRecordsLoop (D : Decoders) (slackNotifier : SlackNotifier)
    (pagerdutyNotifier : PagerdutyNotifier) :
    List SNSRecord → List SinkCall × Outcome
  | [] => ([], Outcome.ok)
  | record :: rest =>
    let step := processSNSRecord D slackNotifier pagerdutyNotifier record
    match step.2 with
    | Outcome.ok =>
      let tail := processSNSRecordsLoop D slackNotifier pagerdutyNotifier rest
      (step.1 ++ tail.1, tail.2)
    | Outcome.err e => (step.1, Outcome.err ("could not process SNS record: " ++ e))
    | Outcome.panicked m => (step.1, Outcome.panicked m)

/-- `processSNSRecords` from sns.go. -/
def processSNSRecords (D : Decoders) (slackNotifier : SlackNotifier)
    (pagerdutyNotifier : PagerdutyNotifier) (raw : String) :
    List SinkCall × Outcome :=
  match D.decodeRecordList raw with
  | Except.error e =>
    ([], Outcome.err ("could not unmarshal SNS record list: " ++ e))
  | Except.ok recordList =>
    processSNSRecordsLoop D slackNotifier pagerdutyNotifier recordList.Records

/-- `processEC2StateChangeEvent` from sns.go. -/
def processEC2StateChangeEvent (D : Decoders) (slackNotifier : SlackNotifier)
    (_pagerdutyNotifier : PagerdutyNotifier) (event : CloudwatchEvent) :
    List SinkCall × Outcome :=
  match D.decodeEC2Detail event.Detail with
  | Except.error e =>
    ([], Outcome.err ("unsupported EC2 Cloudwatch Event Detail: " ++ e))
  | Except.ok eventDetail =>
    let color :=
      if contains ["shutting-down", "terminated", "stopping", "stopped"] eventDetail.State
      then ColorWarn else ColorInfo
    let title := "EC2 Instance State-change"
    let slackMessage : SlackMessage :=
      { Attachments := [
          { Fallback := title
            Color := color
            Fields := [
              { Title := "CloudWatch Event", Value := title, Short := false },
              { Title := "instance-id", Value := eventDetail.InstanceId, Short := true },
              { Title := "state", Value := eventDetail.State, Short := true } ] } ] }
    slackNotifier.sendMessage slackMessage

/-- `processAutoscalingEvent` from sns.go. NOTE (faithful to source):
the Go code declares `var eventDetail ...` in each branch and reads its
fields WITHOUT ever calling `json.Unmarshal(event.Detail, &eventDetail)`,
so every field read yields the zero value `""`; modelled with `{}`. -/
def processAutoscalingEvent (slackNotifier : SlackNotifier)
    (_pagerdutyNotifier : PagerdutyNotifier) (event : CloudwatchEvent) :
    List SinkCall × Outcome :=
  if contains ["EC2 Instance-launch Lifecycle Action",
               "EC2 Instance-terminate Lifecycle Action"] event.DetailType then
    let eventDetail : DetailAutoScalingLifecycleEvent := {}
    let title := "Autoscaling - Lifecycle Action"
    let slackMessage : SlackMessage :=
      { Attachments := [
          { Fallback := title
            Color := ColorInfo
            Fields := [
              { Title := "CloudWatch Event", Value := title, Short := false },
              { Title := "AutoScalingGroupName"
                Value := eventDetail.AutoScalingGroupName, Short := true },
              { Title := "EC2InstanceId", Value := eventDetail.EC2InstanceId, Short := true },
              { Title := "LifecycleTransition"
                Value := eventDetail.LifecycleTransition, Short := true } ] } ] }
    slackNotifier.sendMessage slackMessage
  else
    let eventDetail : DetailAutoScalingEC2Event := {}
    let color :=
      if contains ["EC2 Instance Launch Unsuccessful",
                   "EC2 Instance Terminate Unsuccessful"] event.DetailType
      then ColorWarn else ColorInfo
    let title := "Autoscaling - " ++ event.DetailType
    let slackMessage : SlackMessage :=
      { Attachments := [
          { Fallback := title
            Color := color
            Fields := [
              { Title := "CloudWatch Event", Value := title, Short := false },
              { Title := "EC2InstanceId", Value := eventDetail.EC2InstanceId, Short := true },
              { Title := "StatusCode", Value := eventDetail.StatusCode, Short := true },
              { Title := "Availability Zone"
                Value := eventDetail.Details.AvailabilityZone, Short := true },
              { Title := "Cause", Value := eventDetail.Cause, Short := true } ] } ] }
    slackNotifier.sendMessage slackMessage

/-- Wrap a returned error with a causal prefix, leaving ok and panic
untouched: models `if err != nil { return errors.New(pre + err.Error()) }`. -/
def wrapErr (pre : String) (r : List SinkCall × Outcome) : List SinkCall × Outcome :=
  match r.2 with
  | Outcome.err e => (r.1, Outcome.err (pre ++ e))
  | _ => r

/-- `processCloudwatchEvent` from sns.go. An `aws.ec2` event whose
detail-type is not the state-change notification falls through the inner
`if` with no action; `aws.events` is explicitly ignored. -/
def processCloudwatchEvent (D : Decoders) (slackNotifier : SlackNotifier)
    (pagerdutyNotifier : PagerdutyNotifier) (raw : String) :
    List SinkCall × Outcome :=
  match D.decodeCloudwatchEvent raw with
  | Except.error e =>
    ([], Outcome.err ("unsupported Cloudwatch Event payload: " ++ e))
  | Except.ok event =>
    if event.Source == "aws.ec2" then
      if event.DetailType == "EC2 Instance State-change Notification" then
        wrapErr "failed to process EC2 Event: "
          (processEC2StateChangeEvent D slackNotifier pagerdutyNotifier event)
      else
        ([], Outcome.ok)
    else if event.Source == "aws.events" then -- Cloudwatch Scheduled Event
      ([], Outcome.ok)
    else if event.Source == "aws.autoscaling" then
      wrapErr "failed to process Autoscaling Event: "
        (processAutoscalingEvent slackNotifier pagerdutyNotifier event)
    else
      -- Generic handler for all other types
      let title := event.Source
      let slackMessage : SlackMessage :=
        { Attachments := [
            { Fallback := title
              Color := ColorInfo
              Fields := [
                { Title := "CloudWatch Event", Value := title, Short := false },
                { Title := "Event Detail JSON", Value := event.Detail, Short := false } ] } ] }
      slackNotifier.sendMessage slackMessage

----------------------------------------------------------------------
-- Top-level dispatcher (main.go)

/-- The Go test `data.Records[0]["EventSource"] == "aws:sns"`: an
`interface{}` read from a map compares equal to the string only when it
is that string. -/
def recordEventSourceIsSNS (r0 : List (String × JValue)) : Bool :=
  match jsonMapGet r0 "EventSource" with
  | some (JValue.str s) => s == "aws:sns"
  | _ => false

/-- `processMessage` from main.go. The branch where a record list is
present but its first record's `EventSource` is not `"aws:sns"` only
logs `"No SNS records to process"` and returns nil. -/
def processMessage (D : Decoders) (slackNotifier : SlackNotifier)
    (pagerdutyNotifier : PagerdutyNotifier) (raw : String) :
    List SinkCall × Outcome :=
  match D.decodeGeneric raw with
  | Except.error e => ([], Outcome.err ("unsupported payload: " ++ e))
  | Except.ok data =>
    match data.Records with
    | some (r0 :: _) =>
      if recordEventSourceIsSNS r0 then
        processSNSRecords D slackNotifier pagerdutyNotifier raw
      else
        ([], Outcome.ok)
    | some [] => processCloudwatchEvent D slackNotifier pagerdutyNotifier raw
    | none => processCloudwatchEvent D slackNotifier pagerdutyNotifier raw

----------------------------------------------------------------------
-- Spec-side closed forms of the alarm-branch outputs

/-- Concatenation of the dimension values, in list order. -/
def dimValuesConcat : List CloudwatchAlarmTriggerDimension → String
  | [] => ""
  | d :: ds => d.Value ++ dimValuesConcat ds

/-- The spec's description of the alarm message field list: first the
(subject, state-change-reason) wide field, then one narrow field per
trigger dimension in list order, then narrow Namespace and MetricName
fields. -/
def alarmFieldList (record : SNSRecord) (alarm : CloudwatchAlarm) : List SlackField :=
  { Title := record.Sns.Subject, Value := alarm.NewStateReason, Short := false } ::
    (alarm.Trigger.Dimensions.map fun d =>
      { Title := d.Name, Value := d.Value, Short := true }) ++
    [{ Title := "Namespace", Value := alarm.Trigger.Namespace, Short := true },
     { Title := "MetricName", Value := alarm.Trigger.MetricName, Short := true }]

/-- The chat message of the alarm branch, in the closed form of the spec. -/
def alarmSlackMessage (record : SNSRecord) (alarm : CloudwatchAlarm) : SlackMessage :=
  { Attachments := [
      { Fallback := alarm.NewStateReason
        Color := if strContains record.Sns.Subject "ALARM:" then ColorError else ColorSuccess
        Fields := alarmFieldList record alarm } ] }

/-- The incident built on the failing-alarm path (loop accumulators as
in the source). -/
def incidentOf (record : SNSRecord) (alarm : CloudwatchAlarm) : PagerdutyIncident :=
  let acc := alarm.Trigger.Dimensions.foldl
    (fun (acc : String × List (String × String)) dv =>
      (acc.1 ++ dv.Value, mapInsert acc.2 dv.Name dv.Value))
    ("incident", [])
  { Description := record.Sns.Subject ++ "-" ++ alarm.NewStateReason
    IncidentKey := acc.1
    Details := { Fields := acc.2 } }

----------------------------------------------------------------------
-- Concrete sample inputs used by the witnesses and counterexamples

/-- Sample decoded alarm payload (two dimensions, as in the spec's
worked example). -/
def sampleAlarm : CloudwatchAlarm :=
  { NewStateReason := "reasonA"
    Trigger :=
      { MetricName := "DeliveryErrors"
        Namespace := "ExampleNamespace"
        Dimensions := [{ Name := "az", Value := "us-east-1b" },
                       { Name := "db", Value := "primary" }] } }

def sampleAlarmRecord : SNSRecord :=
  { Sns := { Subject := "ALARM: example", Message := "alarmA" } }

def sampleOkRecord : SNSRecord :=
  { Sns := { Subject := "OK: example", Message := "alarmA" } }

def samplePlainRecord : SNSRecord :=
  { Sns := { Subject := "Some other subject", Message := "plain body" } }

/-- An alarm-subject record whose embedded message does not decode. -/
def badAlarmRecord : SNSRecord :=
  { Sns := { Subject := "ALARM: broken", Message := "brokenA" } }

/-- Decode oracle for the samples: `"alarmA"` decodes to `sampleAlarm`,
everything else fails. -/
def sampleDecoders : Decoders :=
  { decodeGeneric := fun _ => Except.error "generic"
    decodeRecordList := fun _ => Except.error "records"
    decodeCloudwatchEvent := fun _ => Except.error "event"
    decodeAlarm := fun s =>
      if s == "alarmA" then Except.ok sampleAlarm else Except.error "bad alarm"
    decodeEC2Detail := fun _ => Except.error "detail" }

/-- A Slack notifier whose POSTs all succeed. -/
def okSlack : SlackNotifier := {}

/-- A Pagerduty notifier whose POSTs all succeed. -/
def okPagerduty : PagerdutyNotifier := {}

/-- A Slack notifier whose POSTs all fail at the transport level. -/
def failingSlack : SlackNotifier := { postErr := fun _ => some "connection refused" }

/-- A Pagerduty notifier whose POSTs all fail at the transport level. -/
def failingPagerduty : PagerdutyNotifier := { postErr := fun _ => some "connection refused" }

/-- A three-record batch where the second record's embedded alarm
message fails to decode. -/
def sampleBatchDecoders : Decoders :=
  { sampleDecoders with
    decodeRecordList := fun s =>
      if s == "batch" then
        Except.ok { Records := [samplePlainRecord, badAlarmRecord, sampleAlarmRecord] }
      else Except.error "records" }

/-- A direct EC2 state-change event whose detail decodes to state
`"terminated"` under `sampleEventDecoders`. -/
def ec2TerminatedEvent : CloudwatchEvent :=
  { DetailType := "EC2 Instance State-change Notification"
    Source := "aws.ec2"
    Detail := "d-terminated" }

/-- A direct EC2 state-change event whose detail decodes to state
`"pending"` under `sampleEventDecoders`. -/
def ec2PendingEvent : CloudwatchEvent :=
  { DetailType := "EC2 Instance State-change Notification"
    Source := "aws.ec2"
    Detail := "d-pending" }

/-- An `aws.ec2` event with a detail-type other than the state-change
notification. -/
def ec2OtherEvent : CloudwatchEvent :=
  { DetailType := "EC2 Spot Instance Interruption Warning"
    Source := "aws.ec2"
    Detail := "\x7b\x7d" }

/-- An autoscaling lifecycle-action event whose detail document names a
group, an instance and a transition. -/
def asgLifecycleEvent : CloudwatchEvent :=
  { DetailType := "EC2 Instance-launch Lifecycle Action"
    Source := "aws.autoscaling"
    Detail := "lifecycle-detail my-asg i-1234567890abcdef0 EC2_INSTANCE_LAUNCHING" }

/-- An autoscaling activity event whose detail document names an
instance, a status code, an availability zone and a cause. -/
def asgActivityEvent : CloudwatchEvent :=
  { DetailType := "EC2 Instance Launch Successful"
    Source := "aws.autoscaling"
    Detail := "activity-detail i-b188560f InProgress us-east-1b user-request" }

/-- Decode oracle for the direct-event samples. -/
def sampleEventDecoders : Decoders :=
  { sampleDecoders with
    decodeGeneric := fun s =>
      if s == "sns-envelope" then
        Except.ok { Records := some [[("EventSource", JValue.str "aws:sns")]] }
      else if s == "s3-envelope" then
        Except.ok { Records := some [[("EventSource", JValue.str "aws:s3")]] }
      else if s == "direct-event" then
        Except.ok { Records := none }
      else Except.error "generic"
    decodeCloudwatchEvent := fun s =>
      if s == "ec2-terminated" then Except.ok ec2TerminatedEvent
      else if s == "ec2-pending" then Except.ok ec2PendingEvent
      else if s == "ec2-other" then Except.ok ec2OtherEvent
      else Except.error "event"
    decodeEC2Detail := fun s =>
      if s == "d-terminated" then Except.ok { InstanceId := "i-abcd1111", State := "terminated" }
      else if s == "d-pending" then Except.ok { InstanceId := "i-abcd1111", State := "pending" }
      else Except.error "detail" }

----------------------------------------------------------------------
-- Helper lemmas about traces and the loop accumulators

@[simp] theorem slackCalls_nil : slackCalls [] = [] := rfl

@[simp] theorem slackCalls_cons_slack (m : SlackMessage) (t : List SinkCall) :
    slackCalls (SinkCall.slack m :: t) = m :: slackCalls t := rfl

@[simp] theorem slackCalls_cons_pagerduty (i : PagerdutyIncident) (t : List SinkCall) :
    slackCalls (SinkCall.pagerduty i :: t) = slackCalls t := rfl

@[simp] theorem slackCalls_append (t₁ t₂ : List SinkCall) :
    slackCalls (t₁ ++ t₂) = slackCalls t₁ ++ slackCalls t₂ :=
  List.filterMap_append _ _ _

@[simp] theorem pagerdutyCalls_nil : pagerdutyCalls [] = [] := rfl

@[simp] theorem pagerdutyCalls_cons_slack (m : SlackMessage) (t : List SinkCall) :
    pagerdutyCalls (SinkCall.slack m :: t) = pagerdutyCalls t := rfl

@[simp] theorem pagerdutyCalls_cons_pagerduty (i : PagerdutyIncident) (t : List SinkCall) :
    pagerdutyCalls (SinkCall.pagerduty i :: t) = i :: pagerdutyCalls t := rfl

@[simp] theorem pagerdutyCalls_append (t₁ t₂ : List SinkCall) :
    pagerdutyCalls (t₁ ++ t₂) = pagerdutyCalls t₁ ++ pagerdutyCalls t₂ :=
  List.filterMap_append _ _ _

/-- A loop `for x in l { acc = append(acc, [g x]) }` appends the map of `l`. -/
theorem foldl_push_eq_append_map {α β : Type} (g : α → β) :
    ∀ (l : List α) (init : List β),
      l.foldl (fun fs d => fs ++ [g d]) init = init ++ l.map g
  | [], init => by simp
  | a :: l, init => by
    simp [List.foldl_cons, foldl_push_eq_append_map g l (init ++ [g a])]

/-- First component of the incident-key/detail-fields loop accumulator. -/
theorem foldl_incident_fst :
    ∀ (l : List CloudwatchAlarmTriggerDimension) (s : String) (m : List (String × String)),
      (l.foldl (fun (acc : String × List (String × String)) dv =>
          (acc.1 ++ dv.Value, mapInsert acc.2 dv.Name dv.Value)) (s, m)).1
        = s ++ dimValuesConcat l
  | [], s, m => by simp [dimValuesConcat]
  | d :: l, s, m => by
    simp only [List.foldl_cons, dimValuesConcat,
      foldl_incident_fst l (s ++ d.Value) (mapInsert m d.Name d.Value)]
    rw [String.append_assoc]

@[simp] theorem mapLookup_mapInsert_self (m : List (String × String)) (k v : String) :
    mapLookup (mapInsert m k v) k = some v := by
  induction m with
  | nil => simp [mapInsert, mapLookup]
  | cons p ps ih =>
    by_cases h : p.1 = k
    · simp [mapInsert, mapLookup, h]
    · simp [mapInsert, mapLookup, h, ih]

theorem mapLookup_mapInsert_ne (m : List (String × String)) (k v k' : String)
    (h : k ≠ k') : mapLookup (mapInsert m k v) k' = mapLookup m k' := by
  induction m with
  | nil => simp [mapInsert, mapLookup, h]
  | cons p ps ih =>
    by_cases hp : p.1 = k
    · simp [mapInsert, mapLookup, hp, h]
    · by_cases hp' : p.1 = k'
      · simp [mapInsert, mapLookup, hp, hp', Ne.symm h]
      · simp [mapInsert, mapLookup, hp, hp', ih]

/-- Folding dimensions whose names all differ from `k` leaves the
lookup of `k` in the detail-fields accumulator unchanged. -/
theorem foldl_incident_snd_lookup_notmem :
    ∀ (l : List CloudwatchAlarmTriggerDimension) (s : String)
      (m : List (String × String)) (k : String),
      (∀ d ∈ l, d.Name ≠ k) →
      mapLookup (l.foldl (fun (acc : String × List (String × String)) dv =>
          (acc.1 ++ dv.Value, mapInsert acc.2 dv.Name dv.Value)) (s, m)).2 k
        = mapLookup m k
  | [], _, _, _, _ => by simp
  | d :: l, s, m, k, h => by
    simp only [List.foldl_cons]
    rw [foldl_incident_snd_lookup_notmem l (s ++ d.Value) (mapInsert m d.Name d.Value) k
      (fun d' hd' => h d' (List.mem_cons_of_mem _ hd'))]
    exact mapLookup_mapInsert_ne m d.Name d.Value k (h d (List.mem_cons_self _ _))

/-- With distinct dimension names, the detail-fields accumulator maps
each dimension name to its value. -/
theorem foldl_incident_snd_lookup :
    ∀ (l : List CloudwatchAlarmTriggerDimension) (s : String)
      (m : List (String × String)),
      (l.map (fun d => d.Name)).Nodup →
      ∀ d ∈ l,
        mapLookup (l.foldl (fun (acc : String × List (String × String)) dv =>
            (acc.1 ++ dv.Value, mapInsert acc.2 dv.Name dv.Value)) (s, m)).2 d.Name
          = some d.Value
  | [], _, _, _, d, hd => absurd hd (List.not_mem_nil d)
  | d0 :: l, s, m, hnd, d, hd => by
    rw [List.map_cons, List.nodup_cons] at hnd
    rcases List.mem_cons.mp hd with hd | hd
    · subst hd
      simp only [List.foldl_cons]
      rw [foldl_incident_snd_lookup_notmem l (s ++ d.Value) (mapInsert m d.Name d.Value) d.Name
        (fun d' hd' hne => hnd.1 (hne ▸ List.mem_map_of_mem (fun x => x.Name) hd'))]
      exact mapLookup_mapInsert_self m d.Name d.Value
    · simp only [List.foldl_cons]
      exact foldl_incident_snd_lookup l (s ++ d0.Value) (mapInsert m d0.Name d0.Value)
        hnd.2 d hd

@[simp] theorem sendMessage_fst (n : SlackNotifier) (m : SlackMessage) :
    (n.sendMessage m).1 = [SinkCall.slack m] := rfl

theorem sendMessage_snd_ok (n : SlackNotifier) (m : SlackMessage)
    (h : n.postErr m = none) : (n.sendMessage m).2 = Outcome.ok := by
  simp [SlackNotifier.sendMessage, h]

@[simp] theorem triggerIncident_fst (p : PagerdutyNotifier) (i : PagerdutyIncident) :
    (p.triggerIncident i).1 = [SinkCall.pagerduty i] := rfl

/-- Characterization of `processSNSRecord` on the Cloudwatch-alarm
branch when the embedded message decodes and the chat POST succeeds:
the failing case sends the alarm message then triggers the incident,
the non-failing case sends the alarm message only. -/
theorem processSNSRecord_alarm_spec (D : Decoders) (slackNotifier : SlackNotifier)
    (pagerdutyNotifier : PagerdutyNotifier) (record : SNSRecord) (alarm : CloudwatchAlarm)
    (hsub : (strContains record.Sns.Subject "ALARM:"
              || strContains record.Sns.Subject "OK:") = true)
    (hdec : D.decodeAlarm record.Sns.Message = Except.ok alarm)
    (hslack : ∀ m, slackNotifier.postErr m = none) :
    processSNSRecord D slackNotifier pagerdutyNotifier record =
      if strContains record.Sns.Subject "ALARM:" then
        (SinkCall.slack (alarmSlackMessage record alarm) ::
           (pagerdutyNotifier.triggerIncident (incidentOf record alarm)).1,
         (pagerdutyNotifier.triggerIncident (incidentOf record alarm)).2)
      else
        ([SinkCall.slack (alarmSlackMessage record alarm)], Outcome.ok) := by
  have hfields :
      alarm.Trigger.Dimensions.foldl
        (fun fs d => fs ++ [{ Title := d.Name, Value := d.Value, Short := true }])
        [{ Title := record.Sns.Subject, Value := alarm.NewStateReason, Short := false }]
      = ({ Title := record.Sns.Subject, Value := alarm.NewStateReason,
           Short := false } : SlackField) ::
          (alarm.Trigger.Dimensions.map fun d =>
            { Title := d.Name, Value := d.Value, Short := true }) := by
    rw [foldl_push_eq_append_map]; rfl
  simp only [processSNSRecord, hsub, if_true, hdec, SlackNotifier.sendMessage, hslack,
    alarmSlackMessage, alarmFieldList, incidentOf, hfields]
  by_cases hA : strContains record.Sns.Subject "ALARM:"
  · simp [hA, List.append_assoc]
  · simp [hA]

----------------------------------------------------------------------
-- C1

/-- C1: For every SNS record whose subject contains "ALARM:" and whose
embedded message decodes as an alarm payload, `processSNSRecord` sends
exactly one Pagerduty incident whose description is subject ++ "-" ++
NewStateReason, whose incident key is "incident" followed by every
trigger dimension value in list order (bare "incident" when the
dimension list is empty), and whose detail fields map each dimension
name to its value; and a record whose subject contains "OK:" but not
"ALARM:" sends no incident. -/
theorem C1_failing_alarm_incident (D : Decoders) (slackNotifier : SlackNotifier)
    (pagerdutyNotifier : PagerdutyNotifier) (record : SNSRecord) :
    (∀ alarm, D.decodeAlarm record.Sns.Message = Except.ok alarm →
      (∀ m, slackNotifier.postErr m = none) →
      strContains record.Sns.Subject "ALARM:" = true →
      ∃ inc,
        pagerdutyCalls (processSNSRecord D slackNotifier pagerdutyNotifier record).1 = [inc]
        ∧ inc.Description = record.Sns.Subject ++ "-" ++ alarm.NewStateReason
        ∧ inc.IncidentKey = "incident" ++ dimValuesConcat alarm.Trigger.Dimensions
        ∧ (alarm.Trigger.Dimensions = [] → inc.IncidentKey = "incident")
        ∧ ((alarm.Trigger.Dimensions.map fun d => d.Name).Nodup →
            ∀ d ∈ alarm.Trigger.Dimensions,
              mapLookup inc.Details.Fields d.Name = some d.Value))
    ∧ (strContains record.Sns.Subject "OK:" = true →
       strContains record.Sns.Subject "ALARM:" = false →
       pagerdutyCalls (processSNSRecord D slackNotifier pagerdutyNotifier record).1 = []) := by
  constructor
  · intro alarm hdec hslack hA
    refine ⟨incidentOf record alarm, ?_, ?_, ?_, ?_, ?_⟩
    · rw [processSNSRecord_alarm_spec D slackNotifier pagerdutyNotifier record alarm
        (by simp [hA]) hdec hslack]
      simp [hA]
    · rfl
    · exact foldl_incident_fst alarm.Trigger.Dimensions "incident" []
    · intro h; simp [incidentOf, h]
    · intro hnd d hd
      exact foldl_incident_snd_lookup alarm.Trigger.Dimensions "incident" [] hnd d hd
  · intro hOK hA
    by_cases hdec : ∃ alarm, D.decodeAlarm record.Sns.Message = Except.ok alarm
    · obtain ⟨alarm, hdec⟩ := hdec
      simp only [processSNSRecord, hA, hOK, Bool.false_or, if_true, hdec]
      split <;> simp [hA]
    · simp only [processSNSRecord, hA, hOK, Bool.false_or, if_true]
      cases h : D.decodeAlarm record.Sns.Message with
      | error e => simp
      | ok alarm => exact absurd ⟨alarm, h⟩ hdec

/-- Witness for C1 at the spec's worked example. -/
theorem C1_failing_alarm_incident_witness :
    (sampleDecoders.decodeAlarm sampleAlarmRecord.Sns.Message = Except.ok sampleAlarm)
    ∧ strContains sampleAlarmRecord.Sns.Subject "ALARM:" = true
    ∧ (∃ inc,
        pagerdutyCalls
          (processSNSRecord sampleDecoders okSlack okPagerduty sampleAlarmRecord).1 = [inc]
        ∧ inc.Description = sampleAlarmRecord.Sns.Subject ++ "-" ++ sampleAlarm.NewStateReason
        ∧ inc.IncidentKey = "incident" ++ dimValuesConcat sampleAlarm.Trigger.Dimensions
        ∧ (sampleAlarm.Trigger.Dimensions = [] → inc.IncidentKey = "incident")
        ∧ ((sampleAlarm.Trigger.Dimensions.map fun d => d.Name).Nodup →
            ∀ d ∈ sampleAlarm.Trigger.Dimensions,
              mapLookup inc.Details.Fields d.Name = some d.Value))
    ∧ strContains sampleOkRecord.Sns.Subject "OK:" = true
    ∧ strContains sampleOkRecord.Sns.Subject "ALARM:" = false
    ∧ pagerdutyCalls
        (processSNSRecord sampleDecoders okSlack okPagerduty sampleOkRecord).1 = [] :=
  ⟨rfl, by decide,
    (C1_failing_alarm_incident sampleDecoders okSlack okPagerduty sampleAlarmRecord).1
      sampleAlarm rfl (fun _ => rfl) (by decide),
    by decide, by decide,
    (C1_failing_alarm_incident sampleDecoders okSlack okPagerduty sampleOkRecord).2
      (by decide) (by decide)⟩

----------------------------------------------------------------------
-- C5

/-- C5: For every alarm-subject SNS record that decodes successfully,
the chat message built by `processSNSRecord` has exactly the field
list: (subject, state-change reason) wide, then one narrow field per
trigger dimension in list order (name, value), then narrow "Namespace"
and "MetricName" fields; its color is `ColorError` if the subject
contains "ALARM:" and `ColorSuccess` otherwise (see `alarmSlackMessage`
and `alarmFieldList` for the exact closed form). -/
theorem C5_alarm_chat_message (D : Decoders) (slackNotifier : SlackNotifier)
    (pagerdutyNotifier : PagerdutyNotifier) (record : SNSRecord) (alarm : CloudwatchAlarm)
    (hsub : (strContains record.Sns.Subject "ALARM:"
              || strContains record.Sns.Subject "OK:") = true)
    (hdec : D.decodeAlarm record.Sns.Message = Except.ok alarm) :
    slackCalls (processSNSRecord D slackNotifier pagerdutyNotifier record).1
      = [alarmSlackMessage record alarm] := by
  simp only [processSNSRecord, hsub, if_true, hdec]
  have hfields :
      alarm.Trigger.Dimensions.foldl
        (fun fs d => fs ++ [{ Title := d.Name, Value := d.Value, Short := true }])
        [{ Title := record.Sns.Subject, Value := alarm.NewStateReason, Short := false }]
      = ({ Title := record.Sns.Subject, Value := alarm.NewStateReason,
           Short := false } : SlackField) ::
          (alarm.Trigger.Dimensions.map fun d =>
            { Title := d.Name, Value := d.Value, Short := true }) := by
    rw [foldl_push_eq_append_map]; rfl
  simp only [hfields]
  split
  · split
    · simp_all [alarmSlackMessage, alarmFieldList]
    · simp_all [alarmSlackMessage, alarmFieldList]
  · simp_all [alarmSlackMessage, alarmFieldList]

/-- Witness for C5 at the worked example. -/
theorem C5_alarm_chat_message_witness :
    (strContains sampleAlarmRecord.Sns.Subject "ALARM:"
      || strContains sampleAlarmRecord.Sns.Subject "OK:") = true
    ∧ sampleDecoders.decodeAlarm sampleAlarmRecord.Sns.Message = Except.ok sampleAlarm
    ∧ slackCalls
        (processSNSRecord sampleDecoders okSlack okPagerduty sampleAlarmRecord).1
        = [alarmSlackMessage sampleAlarmRecord sampleAlarm] :=
  ⟨by decide, rfl,
    C5_alarm_chat_message sampleDecoders okSlack okPagerduty sampleAlarmRecord sampleAlarm
      (by decide) rfl⟩

----------------------------------------------------------------------
-- C7

/-- C7: For every SNS record whose subject matches none of the alarm
patterns, `processSNSRecord` takes the catch-all branch, and that branch
is behaviorally identical to the RDS-notification branch on the same
record: same single wide (subject, raw message) field, same info-blue
color, same fallback. -/
theorem C7_catch_all_equals_rds_branch (D : Decoders) (slackNotifier : SlackNotifier)
    (pagerdutyNotifier : PagerdutyNotifier) (record : SNSRecord)
    (hA : strContains record.Sns.Subject "ALARM:" = false)
    (hOK : strContains record.Sns.Subject "OK:" = false)
    (hRDS : strContains record.Sns.Subject "RDS Notification Message" = false) :
    processSNSRecord D slackNotifier pagerdutyNotifier record
      = plainMessageBranch slackNotifier record
    ∧ plainMessageBranch slackNotifier record
      = rdsNotificationBranch slackNotifier record :=
  ⟨by simp [processSNSRecord, hA, hOK, hRDS], rfl⟩

/-- Witness for C7 at a plain record. -/
theorem C7_catch_all_equals_rds_branch_witness :
    strContains samplePlainRecord.Sns.Subject "ALARM:" = false
    ∧ strContains samplePlainRecord.Sns.Subject "OK:" = false
    ∧ strContains samplePlainRecord.Sns.Subject "RDS Notification Message" = false
    ∧ processSNSRecord sampleDecoders okSlack okPagerduty samplePlainRecord
        = plainMessageBranch okSlack samplePlainRecord
    ∧ plainMessageBranch okSlack samplePlainRecord
        = rdsNotificationBranch okSlack samplePlainRecord := by
  refine ⟨by decide, by decide, by decide, ?_, ?_⟩
  · exact (C7_catch_all_equals_rds_branch sampleDecoders okSlack okPagerduty
      samplePlainRecord (by decide) (by decide) (by decide)).1
  · exact (C7_catch_all_equals_rds_branch sampleDecoders okSlack okPagerduty
      samplePlainRecord (by decide) (by decide) (by decide)).2

----------------------------------------------------------------------
-- C8

/-- `wrapErr` does not change the trace. -/
@[simp] theorem wrapErr_fst (pre : String) (r : List SinkCall × Outcome) :
    (wrapErr pre r).1 = r.1 := by
  unfold wrapErr; split <;> rfl

/-- `processEC2StateChangeEvent` never pages. -/
theorem pagerdutyCalls_processEC2StateChangeEvent (D : Decoders)
    (slackNotifier : SlackNotifier) (pagerdutyNotifier : PagerdutyNotifier)
    (event : CloudwatchEvent) :
    pagerdutyCalls (processEC2StateChangeEvent D slackNotifier pagerdutyNotifier event).1
      = [] := by
  unfold processEC2StateChangeEvent
  split <;> simp

/-- `processAutoscalingEvent` never pages. -/
theorem pagerdutyCalls_processAutoscalingEvent (slackNotifier : SlackNotifier)
    (pagerdutyNotifier : PagerdutyNotifier) (event : CloudwatchEvent) :
    pagerdutyCalls (processAutoscalingEvent slackNotifier pagerdutyNotifier event).1
      = [] := by
  unfold processAutoscalingEvent
  split <;> simp

/-- C8: `processCloudwatchEvent` (with its sub-handlers) never calls the
paging sink, for every payload, source, detail-type and detail; and
`processSNSRecord` pages only when the subject contains "ALARM:". -/
theorem C8_no_paging_outside_failing_alarm (D : Decoders)
    (slackNotifier : SlackNotifier) (pagerdutyNotifier : PagerdutyNotifier) :
    (∀ raw,
      pagerdutyCalls (processCloudwatchEvent D slackNotifier pagerdutyNotifier raw).1 = [])
    ∧ (∀ record, strContains record.Sns.Subject "ALARM:" = false →
        pagerdutyCalls (processSNSRecord D slackNotifier pagerdutyNotifier record).1 = []) := by
  constructor
  · intro raw
    unfold processCloudwatchEvent
    split
    · simp
    · split
      · split
        · rw [wrapErr_fst]
          exact pagerdutyCalls_processEC2StateChangeEvent D slackNotifier
            pagerdutyNotifier _
        · simp
      · split
        · simp
        · split
          · rw [wrapErr_fst]
            exact pagerdutyCalls_processAutoscalingEvent slackNotifier
              pagerdutyNotifier _
          · simp
  · intro record hA
    unfold processSNSRecord rdsNotificationBranch plainMessageBranch
    simp only [hA, Bool.false_or]
    split
    · split
      · simp
      · split
        · simp [hA]
        · simp
    · split <;> simp

/-- Witness for C8: no paging on a dropped direct event nor on a plain
SNS record. -/
theorem C8_no_paging_outside_failing_alarm_witness :
    pagerdutyCalls
      (processCloudwatchEvent sampleEventDecoders okSlack okPagerduty "ec2-other").1 = []
    ∧ strContains samplePlainRecord.Sns.Subject "ALARM:" = false
    ∧ pagerdutyCalls
        (processSNSRecord sampleEventDecoders okSlack okPagerduty samplePlainRecord).1
        = [] :=
  ⟨(C8_no_paging_outside_failing_alarm sampleEventDecoders okSlack okPagerduty).1
      "ec2-other",
    by decide,
    (C8_no_paging_outside_failing_alarm sampleEventDecoders okSlack okPagerduty).2
      samplePlainRecord (by decide)⟩

----------------------------------------------------------------------
-- C10

/-- C10: An `aws.ec2` event whose detail-type is not
"EC2 Instance State-change Notification" is silently dropped:
`processCloudwatchEvent` returns success with an empty sink-call trace. -/
theorem C10_ec2_other_detail_type_dropped (D : Decoders)
    (slackNotifier : SlackNotifier) (pagerdutyNotifier : PagerdutyNotifier)
    (raw : String) (event : CloudwatchEvent)
    (hdec : D.decodeCloudwatchEvent raw = Except.ok event)
    (hsrc : event.Source = "aws.ec2")
    (hdt : event.DetailType ≠ "EC2 Instance State-change Notification") :
    processCloudwatchEvent D slackNotifier pagerdutyNotifier raw = ([], Outcome.ok) := by
  simp [processCloudwatchEvent, hdec, hsrc, hdt]

/-- Witness for C10 at a spot-interruption-warning event. -/
theorem C10_ec2_other_detail_type_dropped_witness :
    sampleEventDecoders.decodeCloudwatchEvent "ec2-other" = Except.ok ec2OtherEvent
    ∧ ec2OtherEvent.Source = "aws.ec2"
    ∧ ec2OtherEvent.DetailType ≠ "EC2 Instance State-change Notification"
    ∧ processCloudwatchEvent sampleEventDecoders okSlack okPagerduty "ec2-other"
        = ([], Outcome.ok) :=
  ⟨rfl, rfl, by decide,
    C10_ec2_other_detail_type_dropped sampleEventDecoders okSlack okPagerduty
      "ec2-other" ec2OtherEvent rfl rfl (by decide)⟩

----------------------------------------------------------------------
-- C6

/-- `contains` agrees with list membership. -/
theorem contains_iff_mem : ∀ (l : List String) (el : String),
    contains l el = true ↔ el ∈ l
  | [], el => by simp [contains]
  | v :: vs, el => by
    by_cases h : v = el
    · simp [contains, h]
    · simp [contains, Ne.symm h, h, contains_iff_mem vs el]

/-- C6: For every EC2 instance state-change event whose detail decodes,
the chat message's color is warn-yellow iff the decoded state is one of
shutting-down / terminated / stopping / stopped, and info-blue for every
other state. -/
theorem C6_ec2_state_change_color (D : Decoders) (slackNotifier : SlackNotifier)
    (pagerdutyNotifier : PagerdutyNotifier) (event : CloudwatchEvent)
    (eventDetail : DetailEC2StateChange)
    (hdec : D.decodeEC2Detail event.Detail = Except.ok eventDetail) :
    ∃ m, slackCalls (processEC2StateChangeEvent D slackNotifier pagerdutyNotifier event).1
          = [m]
      ∧ ∀ a ∈ m.Attachments,
          (a.Color = ColorWarn ↔
            eventDetail.State ∈ ["shutting-down", "terminated", "stopping", "stopped"])
          ∧ (eventDetail.State ∉ ["shutting-down", "terminated", "stopping", "stopped"] →
              a.Color = ColorInfo) := by
  simp only [processEC2StateChangeEvent, hdec]
  refine ⟨{ Attachments := [{
      Fallback := "EC2 Instance State-change"
      Color := if contains ["shutting-down", "terminated", "stopping", "stopped"]
            eventDetail.State = true then ColorWarn else ColorInfo
      Fields := [
        { Title := "CloudWatch Event", Value := "EC2 Instance State-change", Short := false },
        { Title := "instance-id", Value := eventDetail.InstanceId, Short := true },
        { Title := "state", Value := eventDetail.State, Short := true }] }] },
    by simp, ?_⟩
  intro a ha
  rw [List.mem_singleton] at ha
  subst ha
  constructor
  · by_cases hmem : eventDetail.State ∈ ["shutting-down", "terminated", "stopping", "stopped"]
    · simp [hmem, (contains_iff_mem _ _).mpr hmem]
    · have : contains ["shutting-down", "terminated", "stopping", "stopped"]
          eventDetail.State = false := by
        rcases h : contains ["shutting-down", "terminated", "stopping", "stopped"]
            eventDetail.State
        · rfl
        · exact absurd ((contains_iff_mem _ _).mp h) hmem
      simp only [this, if_false]
      constructor
      · intro hic; exact absurd hic (by decide)
      · intro hmm; exact absurd hmm hmem
  · intro hmem
    have : contains ["shutting-down", "terminated", "stopping", "stopped"]
        eventDetail.State = false := by
      rcases h : contains ["shutting-down", "terminated", "stopping", "stopped"]
          eventDetail.State
      · rfl
      · exact absurd ((contains_iff_mem _ _).mp h) hmem
    simp [this]

/-- Witness for C6 at a terminated-state event. -/
theorem C6_ec2_state_change_color_witness :
    sampleEventDecoders.decodeEC2Detail ec2TerminatedEvent.Detail
      = Except.ok { InstanceId := "i-abcd1111", State := "terminated" }
    ∧ ∃ m, slackCalls
          (processEC2StateChangeEvent sampleEventDecoders okSlack okPagerduty
            ec2TerminatedEvent).1 = [m]
      ∧ ∀ a ∈ m.Attachments,
          (a.Color = ColorWarn ↔
            ({ InstanceId := "i-abcd1111", State := "terminated" }
              : DetailEC2StateChange).State
              ∈ ["shutting-down", "terminated", "stopping", "stopped"])
          ∧ (({ InstanceId := "i-abcd1111", State := "terminated" }
              : DetailEC2StateChange).State
              ∉ ["shutting-down", "terminated", "stopping", "stopped"] →
              a.Color = ColorInfo) :=
  ⟨rfl,
    C6_ec2_state_change_color sampleEventDecoders okSlack okPagerduty
      ec2TerminatedEvent { InstanceId := "i-abcd1111", State := "terminated" } rfl⟩

----------------------------------------------------------------------
-- C4

/-- C4: `processMessage` routes to exactly one classifier: a present,
non-empty record list whose first record's EventSource is "aws:sns"
delegates to the SNS record processor; an absent or empty record list
delegates to the Cloudwatch event processor; a present record list with
any other EventSource returns success with no sink calls. -/
theorem C4_top_level_routing (D : Decoders) (slackNotifier : SlackNotifier)
    (pagerdutyNotifier : PagerdutyNotifier) (raw : String) (data : GenericEvent)
    (hdec : D.decodeGeneric raw = Except.ok data) :
    (∀ r0 rs, data.Records = some (r0 :: rs) →
      (recordEventSourceIsSNS r0 = true →
        processMessage D slackNotifier pagerdutyNotifier raw
          = processSNSRecords D slackNotifier pagerdutyNotifier raw)
      ∧ (recordEventSourceIsSNS r0 = false →
        processMessage D slackNotifier pagerdutyNotifier raw = ([], Outcome.ok)))
    ∧ ((data.Records = none ∨ data.Records = some []) →
        processMessage D slackNotifier pagerdutyNotifier raw
          = processCloudwatchEvent D slackNotifier pagerdutyNotifier raw) := by
  constructor
  · intro r0 rs hr
    constructor <;> intro h <;> simp [processMessage, hdec, hr, h]
  · rintro (h | h) <;> simp [processMessage, hdec, h]

/-- Witness for C4 on the three envelope shapes. -/
theorem C4_top_level_routing_witness :
    (sampleEventDecoders.decodeGeneric "sns-envelope"
        = Except.ok { Records := some [[("EventSource", JValue.str "aws:sns")]] }
      ∧ recordEventSourceIsSNS [("EventSource", JValue.str "aws:sns")] = true
      ∧ processMessage sampleEventDecoders okSlack okPagerduty "sns-envelope"
          = processSNSRecords sampleEventDecoders okSlack okPagerduty "sns-envelope")
    ∧ (recordEventSourceIsSNS [("EventSource", JValue.str "aws:s3")] = false
      ∧ processMessage sampleEventDecoders okSlack okPagerduty "s3-envelope"
          = ([], Outcome.ok))
    ∧ processMessage sampleEventDecoders okSlack okPagerduty "direct-event"
        = processCloudwatchEvent sampleEventDecoders okSlack okPagerduty "direct-event" := by
  refine ⟨⟨rfl, by decide, ?_⟩, ⟨by decide, ?_⟩, ?_⟩
  · exact ((C4_top_level_routing sampleEventDecoders okSlack okPagerduty "sns-envelope"
      { Records := some [[("EventSource", JValue.str "aws:sns")]] } rfl).1
      [("EventSource", JValue.str "aws:sns")] [] rfl).1 (by decide)
  · exact ((C4_top_level_routing sampleEventDecoders okSlack okPagerduty "s3-envelope"
      { Records := some [[("EventSource", JValue.str "aws:s3")]] } rfl).1
      [("EventSource", JValue.str "aws:s3")] [] rfl).2 (by decide)
  · exact (C4_top_level_routing sampleEventDecoders okSlack okPagerduty "direct-event"
      { Records := none } rfl).2 (Or.inl rfl)

----------------------------------------------------------------------
-- C3

/-- A record processed with outcome ok made exactly one chat-sink call. -/
theorem processSNSRecord_ok_one_slack (D : Decoders) (s : SlackNotifier)
    (p : PagerdutyNotifier) (r : SNSRecord)
    (h : (processSNSRecord D s p r).2 = Outcome.ok) :
    (slackCalls (processSNSRecord D s p r).1).length = 1 := by
  rcases hE : processSNSRecord D s p r with ⟨t, o⟩
  rw [hE] at h
  have ho : o = Outcome.ok := h
  subst ho
  simp only [processSNSRecord, rdsNotificationBranch, plainMessageBranch,
    SlackNotifier.sendMessage, PagerdutyNotifier.triggerIncident] at hE
  repeat' split at hE
  all_goals
    injection hE with h1 h2
    subst h1
    simp_all

/-- C3: The batch processor handles records in list order and aborts on
the first per-record failure: in a three-record batch whose second
record has an alarm subject but an undecodable message, the whole batch
makes the first record's sink calls only (exactly one chat call), and
returns the wrapped decode error — the third record is never attempted. -/
theorem C3_batch_fail_fast (D : Decoders) (slackNotifier : SlackNotifier)
    (pagerdutyNotifier : PagerdutyNotifier) (raw : String)
    (r1 r2 r3 : SNSRecord) (e : String)
    (hlist : D.decodeRecordList raw = Except.ok { Records := [r1, r2, r3] })
    (h1 : (processSNSRecord D slackNotifier pagerdutyNotifier r1).2 = Outcome.ok)
    (hsub2 : (strContains r2.Sns.Subject "ALARM:"
               || strContains r2.Sns.Subject "OK:") = true)
    (hdec2 : D.decodeAlarm r2.Sns.Message = Except.error e) :
    (processSNSRecords D slackNotifier pagerdutyNotifier raw).1
        = (processSNSRecord D slackNotifier pagerdutyNotifier r1).1
    ∧ (slackCalls (processSNSRecords D slackNotifier pagerdutyNotifier raw).1).length = 1
    ∧ (processSNSRecords D slackNotifier pagerdutyNotifier raw).2
        = Outcome.err ("could not process SNS record: "
            ++ ("could not unmarshal Cloudwatch Alarm payload: " ++ e)) := by
  have hr2 : processSNSRecord D slackNotifier pagerdutyNotifier r2
      = ([], Outcome.err ("could not unmarshal Cloudwatch Alarm payload: " ++ e)) := by
    simp [processSNSRecord, hsub2, hdec2]
  have hloop : processSNSRecords D slackNotifier pagerdutyNotifier raw
      = ((processSNSRecord D slackNotifier pagerdutyNotifier r1).1,
         Outcome.err ("could not process SNS record: "
           ++ ("could not unmarshal Cloudwatch Alarm payload: " ++ e))) := by
    simp [processSNSRecords, hlist, processSNSRecordsLoop, h1, hr2]
  refine ⟨by rw [hloop], ?_, by rw [hloop]⟩
  rw [hloop]
  exact processSNSRecord_ok_one_slack D slackNotifier pagerdutyNotifier r1 h1

/-- Witness for C3 at the three-record sample batch. -/
theorem C3_batch_fail_fast_witness :
    sampleBatchDecoders.decodeRecordList "batch"
        = Except.ok { Records := [samplePlainRecord, badAlarmRecord, sampleAlarmRecord] }
    ∧ (processSNSRecord sampleBatchDecoders okSlack okPagerduty samplePlainRecord).2
        = Outcome.ok
    ∧ (strContains badAlarmRecord.Sns.Subject "ALARM:"
        || strContains badAlarmRecord.Sns.Subject "OK:") = true
    ∧ sampleBatchDecoders.decodeAlarm badAlarmRecord.Sns.Message
        = Except.error "bad alarm"
    ∧ ((processSNSRecords sampleBatchDecoders okSlack okPagerduty "batch").1
        = (processSNSRecord sampleBatchDecoders okSlack okPagerduty samplePlainRecord).1
      ∧ (slackCalls (processSNSRecords sampleBatchDecoders okSlack okPagerduty "batch").1).length = 1
      ∧ (processSNSRecords sampleBatchDecoders okSlack okPagerduty "batch").2
        = Outcome.err ("could not process SNS record: "
            ++ ("could not unmarshal Cloudwatch Alarm payload: " ++ "bad alarm"))) :=
  ⟨rfl, rfl, by decide, rfl,
    C3_batch_fail_fast sampleBatchDecoders okSlack okPagerduty "batch"
      samplePlainRecord badAlarmRecord sampleAlarmRecord "bad alarm"
      rfl rfl (by decide) rfl⟩

----------------------------------------------------------------------
-- C2

/-- C2 counterevidence: `processAutoscalingEvent` never decodes the
event's detail sub-document — `eventDetail` keeps its zero value — so
the narrow fields of the chat message are empty strings regardless of
the detail contents, on both the lifecycle-action branch and the
activity branch. -/
theorem C2_autoscaling_detail_never_decoded (slackNotifier : SlackNotifier)
    (pagerdutyNotifier : PagerdutyNotifier) :
    slackCalls (processAutoscalingEvent slackNotifier pagerdutyNotifier asgLifecycleEvent).1
      = [{ Attachments := [
            { Fallback := "Autoscaling - Lifecycle Action"
              Color := ColorInfo
              Fields := [
                { Title := "CloudWatch Event", Value := "Autoscaling - Lifecycle Action",
                  Short := false },
                { Title := "AutoScalingGroupName", Value := "", Short := true },
                { Title := "EC2InstanceId", Value := "", Short := true },
                { Title := "LifecycleTransition", Value := "", Short := true }] }] }]
    ∧ slackCalls (processAutoscalingEvent slackNotifier pagerdutyNotifier asgActivityEvent).1
      = [{ Attachments := [
            { Fallback := "Autoscaling - EC2 Instance Launch Successful"
              Color := ColorInfo
              Fields := [
                { Title := "CloudWatch Event",
                  Value := "Autoscaling - EC2 Instance Launch Successful", Short := false },
                { Title := "EC2InstanceId", Value := "", Short := true },
                { Title := "StatusCode", Value := "", Short := true },
                { Title := "Availability Zone", Value := "", Short := true },
                { Title := "Cause", Value := "", Short := true }] }] }] :=
  ⟨rfl, rfl⟩

----------------------------------------------------------------------
-- C9

/-- C9 counterevidence: when a sink POST fails at the transport level,
both senders dereference the nil response (`res.Body.Close()` precedes
the error check in the source) and panic instead of returning a
`SinkError`. -/
theorem C9_transport_failure_panics_not_error :
    (failingSlack.sendMessage { Attachments := [] }).2
        = Outcome.panicked "runtime error: invalid memory address or nil pointer dereference"
    ∧ (failingPagerduty.triggerIncident { Description := "d", IncidentKey := "k" }).2
        = Outcome.panicked "runtime error: invalid memory address or nil pointer dereference"
    ∧ (∀ e, (failingSlack.sendMessage { Attachments := [] }).2 ≠ Outcome.err e)
    ∧ (∀ e, (failingPagerduty.triggerIncident
          { Description := "d", IncidentKey := "k" }).2 ≠ Outcome.err e) := by
  refine ⟨rfl, rfl, ?_, ?_⟩ <;> intro e h <;> exact Outcome.noConfusion h

end AwsNotifier
